import Mathlib

/-!
Verification of the HingeSDK client core (`src/hingesdk/client.py`):
the request-execution / error-classification layer (`HingeClient._request`),
the identity-header construction (`HingeClient.__init__`), and the SMS login
flow (`HingeClient.login_with_sms`).

Python dictionaries holding headers are modelled as association lists without
duplicate keys; `d[k] = v` and `d.update(other)` follow Python semantics
(replace in place when the key exists, append otherwise).  The HTTP transport
is an explicit input: either a received response (status code, reason phrase,
raw text, and the result of attempting to parse the body as JSON) or a
transport-level failure.  `requests.Response.raise_for_status` raises exactly
for status codes in [400, 600).
-/

set_option maxRecDepth 8000

namespace HingeSDK

/-- A JSON value occurring in the auth endpoints' bodies: the fields the
client reads (`token`, `playerId`, `sessionId`, `caseId`, `message`) are
strings or null. -/
inductive JVal where
  | jnull
  | jstr (s : String)
deriving DecidableEq, Repr

/-- A parsed JSON object body, as returned by `response.json()`. -/
abbrev JObj := List (String × JVal)

/-- `d.get(k)` on a parsed JSON object: `none` when the key is absent. -/
def jget (o : JObj) (k : String) : Option JVal :=
  (List.find? (fun p => p.1 == k) o).map (fun p => p.2)

/-- Python truthiness of the result of `d.get(k)`: `None`, JSON null and the
empty string are falsy. -/
def jtruthy : Option JVal → Bool
  | none => false
  | some JVal.jnull => false
  | some (JVal.jstr s) => !(s == "")

/-- A `.get` result passed on to a parameter annotated `Optional[str]`:
absent keys and JSON null both become `None`. -/
def asOptStr : Option JVal → Option String
  | some (JVal.jstr s) => some s
  | _ => none

/-- Python truthiness of an `Optional[str]` value. -/
def optStrTruthy : Option String → Bool
  | none => false
  | some s => !(s == "")

/-- A string-valued dictionary (request headers), kept as an association
list without duplicate keys. -/
abbrev Dict := List (String × String)

/-- Dictionary lookup, `d[k]` / `d.get(k)`. -/
def dget (d : Dict) (k : String) : Option String :=
  (List.find? (fun p => p.1 == k) d).map (fun p => p.2)

/-- `d[k] = v` with Python semantics: replace the binding in place when the
key exists, append at the end otherwise. -/
def dinsert (d : Dict) (k v : String) : Dict :=
  if List.any d (fun p => p.1 == k) then
    List.map (fun p => if p.1 == k then (k, v) else p) d
  else
    d ++ [(k, v)]

/-- `d.update(other)`: insert every binding of `other` into `d`, in order. -/
def dupdate (d other : Dict) : Dict :=
  List.foldl (fun acc p => dinsert acc p.1 p.2) d other

/-- A value stored in an error's `details` dictionary (the details are
heterogeneous in the Python source: strings, numbers, `None`, header
dictionaries, parsed JSON values and objects). -/
inductive DetailValue where
  | vstr (s : String)
  | vnum (n : Nat)
  | vnone
  | vjval (j : JVal)
  | vjobj (o : JObj)
  | vdict (d : Dict)
deriving DecidableEq, Repr

/-- The `details` mapping attached to an error. -/
abbrev Details := List (String × DetailValue)

/-- Lookup in a `details` mapping. -/
def detailsGet (d : Details) (k : String) : Option DetailValue :=
  (List.find? (fun p => p.1 == k) d).map (fun p => p.2)

/-- A `.get` result stored into a details dictionary (the 412 branch stores
`verify_data.get("caseId")` and `verify_data.get("message")` directly). -/
def DetailValue.ofGet : Option JVal → DetailValue
  | none => DetailValue.vnone
  | some j => DetailValue.vjval j

/-- Modelled from the spec: the exceptions module (`HingeAPIError`,
`HingeAuthError`, `HingeRequestError`) is imported by `client.py` but is not
under `src/`.  Following the spec's error taxonomy (§7) and shared error
payload (§3), an error is a tagged variant carrying a message, for request
errors additionally the status code and raw response body, and a details
mapping. -/
inductive HingeError where
  | apiError (message : String) (details : Details)
  | authError (message : String) (details : Details)
  | requestError (status_code : Nat) (message : String) (response_body : String)
      (details : Details)
deriving DecidableEq, Repr

/-- A received HTTP response: status code, reason phrase, raw text, and the
result of attempting to parse the body as a JSON object (`none` when
`response.json()` raises `JSONDecodeError`). -/
structure HttpResponse where
  status_code : Nat
  reason : String
  text : String
  jsonBody : Option JObj
deriving DecidableEq, Repr

/-- The outcome of handing a request to the HTTP transport: either a response
was received, or a transport-level failure (`requests.RequestException` that
is not an `HTTPError`) occurred, carrying the exception class name and its
message. -/
inductive Transport where
  | response (r : HttpResponse)
  | failure (excType : String) (excMsg : String)
deriving DecidableEq, Repr

/-- The keyword arguments the client passes to `session.request`: per-call
headers and an optional JSON body (`json=`) or raw body (`data=`). -/
structure RequestKwargs where
  headers : Dict := []
  json : Option JObj := none
  data : Option String := none
deriving DecidableEq, Repr

/-- `kwargs.get("json") or kwargs.get("data")` with Python `or` semantics:
the JSON body wins unless it is falsy (absent or the empty dict). -/
def requestBodyDetail (kw : RequestKwargs) : DetailValue :=
  match kw.json with
  | some o =>
      if o ≠ ([] : JObj) then DetailValue.vjobj o
      else match kw.data with
        | some s => if s ≠ "" then DetailValue.vstr s else DetailValue.vnone
        | none => DetailValue.vnone
  | none =>
      match kw.data with
      | some s => if s ≠ "" then DetailValue.vstr s else DetailValue.vnone
      | none => DetailValue.vnone

/-- The constructor parameters of `HingeClient.__init__`, with their default
values. -/
structure ClientConfig where
  auth_token : Option String := none
  app_version : String := "9.75.0"
  os_version : String := "14"
  device_model : String := "Pixel 6a"
  install_id : String := "735de715-0876-45c5-be1e-aecdf8cb42d1"
  device_id : String := "b4b578b8250e8ca8"
  accept_language : String := "en-US"
  device_region : String := "US"
  user_id : Option String := none
  session_id : Option String := none
deriving DecidableEq, Repr

/-- The fixed identity headers built unconditionally in `__init__`
(client.py lines 55-72). -/
def baseHeaders (cfg : ClientConfig) : Dict :=
  [("x-app-version", cfg.app_version),
   ("x-os-version", cfg.os_version),
   ("x-os-version-code", "34"),
   ("x-device-model", cfg.device_model),
   ("x-device-model-code", cfg.device_model),
   ("x-device-manufacturer", "Google"),
   ("x-build-number", "168200482"),
   ("x-device-platform", "android"),
   ("x-install-id", cfg.install_id),
   ("x-device-id", cfg.device_id),
   ("accept-language", cfg.accept_language),
   ("x-device-region", cfg.device_region),
   ("host", "prod-api.hingeaws.net"),
   ("connection", "Keep-Alive"),
   ("accept-encoding", "gzip"),
   ("user-agent", "okhttp/4.12.0")]

/-- `self.default_headers` after `__init__`: the fixed identity headers, then
`authorization` when `auth_token` is truthy (client.py lines 74-75), then
`x-session-id` when `session_id` is truthy (lines 76-77). -/
def defaultHeaders (cfg : ClientConfig) : Dict :=
  let d := baseHeaders cfg
  let d := if optStrTruthy cfg.auth_token then
      dinsert d "authorization" ("Bearer " ++ cfg.auth_token.getD "")
    else d
  if optStrTruthy cfg.session_id then
    dinsert d "x-session-id" (cfg.session_id.getD "")
  else d

/-- The state a `HingeClient` instance carries after `__init__`. -/
structure HingeClient where
  auth_token : Option String
  session_id : Option String
  user_id : Option String
  default_headers : Dict
deriving DecidableEq, Repr

/-- `HingeClient.__init__`. -/
def HingeClient.init (cfg : ClientConfig) : HingeClient :=
  { auth_token := cfg.auth_token
    session_id := cfg.session_id
    user_id := cfg.user_id
    default_headers := defaultHeaders cfg }

instance : DecidableEq (Except HingeError HingeClient) := fun x y =>
  match x, y with
  | Except.ok a, Except.ok b =>
      if h : a = b then isTrue (by rw [h]) else isFalse (fun hc => h (Except.ok.inj hc))
  | Except.error a, Except.error b =>
      if h : a = b then isTrue (by rw [h]) else isFalse (fun hc => h (Except.error.inj hc))
  | Except.ok _, Except.error _ => isFalse (fun hc => Except.noConfusion hc)
  | Except.error _, Except.ok _ => isFalse (fun hc => Except.noConfusion hc)

def BASE_URL : String := "https://prod-api.hingeaws.net"

/-- Lines 83-85 of `_request`: copy the caller-supplied headers, then
`headers.update(self.default_headers)` — identity headers overwrite
caller-supplied headers of the same name. -/
def mergedHeaders (c : HingeClient) (kw : RequestKwargs) : Dict :=
  dupdate kw.headers c.default_headers

/-- The message `requests.Response.raise_for_status` raises with: it raises
exactly for status codes in [400, 500) ("Client Error") and [500, 600)
("Server Error"); any other status code, below 400 or at 600 and above,
does not raise. -/
def raiseForStatusMsg (status : Nat) (reason url : String) : Option String :=
  if 400 ≤ status ∧ status < 500 then
    some (toString status ++ " Client Error: " ++ reason ++ " for url: " ++ url)
  else if 500 ≤ status ∧ status < 600 then
    some (toString status ++ " Server Error: " ++ reason ++ " for url: " ++ url)
  else none

/-- Python's `str.lower()`, applied characterwise (header names are ASCII). -/
def strLower (s : String) : String :=
  String.mk (List.map Char.toLower s.data)

/-- The details dictionary built on an HTTP error status (client.py lines
103-109): the endpoint URL, the merged request headers with every
`authorization` key removed case-insensitively, and the request body. -/
def httpErrorDetails (headers : Dict) (kw : RequestKwargs) (url : String) : Details :=
  [("endpoint", DetailValue.vstr url),
   ("request_headers",
     DetailValue.vdict (List.filter (fun p => !(strLower p.1 == "authorization")) headers)),
   ("request_body", requestBodyDetail kw)]

/-- `HingeClient._request` (client.py lines 81-121): merge headers, hand the
request to the transport, return sub-error responses unmodified, classify an
`HTTPError` into `HingeAuthError` (401, 412) or `HingeRequestError`, and
report a transport failure as `HingeAPIError`. -/
def HingeClient.request (c : HingeClient) (method url : String)
    (kw : RequestKwargs) (t : Transport) : Except HingeError HttpResponse :=
  let headers := mergedHeaders c kw
  match t with
  | Transport.failure excType excMsg =>
      Except.error (HingeError.apiError ("Request failed: " ++ excMsg)
        [("exception_type", DetailValue.vstr excType),
         ("url", DetailValue.vstr url),
         ("method", DetailValue.vstr method)])
  | Transport.response r =>
      match raiseForStatusMsg r.status_code r.reason url with
      | none => Except.ok r
      | some msg =>
          let details := httpErrorDetails headers kw url
          if r.status_code == 401 then
            Except.error (HingeError.authError "Authentication failed" details)
          else if r.status_code == 412 then
            Except.error (HingeError.authError "Precondition failed" details)
          else
            Except.error (HingeError.requestError r.status_code msg r.text details)

/-- The character for one hexadecimal digit, lowercase. -/
def hexDigitChar (n : Nat) : Char :=
  if n < 10 then Char.ofNat (48 + n) else Char.ofNat (87 + n)

/-- Fixed-width big-endian lowercase-hex rendering of `n`. -/
def hexChars (n : Nat) : Nat → List Char
  | 0 => []
  | len + 1 => hexChars (n / 16) len ++ [hexDigitChar (n % 16)]

/-- Modelled from the spec: the fallback session identifier is
`str(uuid.uuid4())` from the Python standard library, which is not under
`src/`; the spec describes it as "generating a new random session
identifier".  `str` of a version-4 UUID is the canonical 8-4-4-4-12
lowercase-hex rendering of its 128 bits, where the version nibble is forced
to `4` and the two variant bits to `10`; the argument supplies the remaining
122 random bits. -/
def uuid4str (r : Nat) : String :=
  String.mk (hexChars (r % 2 ^ 32) 8
    ++ '-' :: hexChars (r / 2 ^ 32 % 2 ^ 16) 4
    ++ '-' :: hexChars (4 * 2 ^ 12 + r / 2 ^ 48 % 2 ^ 12) 4
    ++ '-' :: hexChars (2 * 2 ^ 14 + r / 2 ^ 60 % 2 ^ 14) 4
    ++ '-' :: hexChars (r / 2 ^ 74 % 2 ^ 48) 12)

/-- `HingeClient.login_with_sms` (client.py lines 123-231), with the
environment made explicit: the transport outcomes of the initiate and verify
calls, the externally supplied SMS code, and the random bits consumed if a
fallback session identifier has to be generated.  A raised exception is an
`Except.error` result. -/
def login_with_sms (phone_number device_id install_id : String)
    (initiateOutcome : Transport) (sms_code : String) (verifyOutcome : Transport)
    (uuidRandomBits : Nat) : Except HingeError HingeClient :=
  let temp_client := HingeClient.init { device_id := device_id, install_id := install_id }
  let initiate_url := BASE_URL ++ "/auth/sms/v2/initiate"
  let payload : JObj :=
    [("phoneNumber", JVal.jstr phone_number), ("deviceId", JVal.jstr device_id)]
  let headers : Dict := [("content-type", "application/json; charset=UTF-8")]
  match temp_client.request "POST" initiate_url
      { headers := headers, json := some payload } initiateOutcome with
  | Except.error e => Except.error e
  | Except.ok _ =>
    let verify_url := BASE_URL ++ "/auth/sms/v2"
    let verify_payload : JObj :=
      [("deviceId", JVal.jstr device_id),
       ("installId", JVal.jstr install_id),
       ("phoneNumber", JVal.jstr phone_number),
       ("otp", JVal.jstr sms_code)]
    match temp_client.request "POST" verify_url
        { headers := headers, json := some verify_payload } verifyOutcome with
    | Except.error e => Except.error e
    | Except.ok verify_response =>
      match verify_response.jsonBody with
      | none =>
          Except.error (HingeError.apiError "Failed to parse verification response"
            [("status_code", DetailValue.vnum verify_response.status_code),
             ("response_text", DetailValue.vstr verify_response.text)])
      | some verify_data =>
          if verify_response.status_code == 412 && (jget verify_data "caseId").isSome then
            Except.error (HingeError.authError "Email verification required"
              [("case_id", DetailValue.ofGet (jget verify_data "caseId")),
               ("message", DetailValue.ofGet (jget verify_data "message"))])
          else
            let auth_token := jget verify_data "token"
            let user_id := jget verify_data "playerId"
            let session_id := jget verify_data "sessionId"
            if !(jtruthy auth_token) then
              Except.error (HingeError.apiError "Failed to retrieve authentication token"
                [("response", DetailValue.vjobj verify_data)])
            else
              let session_id : Option String :=
                if !(jtruthy session_id) then some (uuid4str uuidRandomBits)
                else asOptStr session_id
              Except.ok (HingeClient.init
                { auth_token := asOptStr auth_token
                  device_id := device_id
                  install_id := install_id
                  user_id := asOptStr user_id
                  session_id := session_id })

/-- Numeric value of one lowercase hexadecimal digit character. -/
def hexCharVal (c : Char) : Nat :=
  if 97 ≤ c.toNat then c.toNat - 87 else c.toNat - 48

/-- Big-endian hexadecimal decoding, continuing from accumulator `a`. -/
def unhexFrom (a : Nat) (l : List Char) : Nat :=
  List.foldl (fun acc c => 16 * acc + hexCharVal c) a l

/-- The response used to refute C1 as stated: a received status of 600 is
`≥ 400` and distinct from 401 and 412, yet `raise_for_status` does not raise
for it, so `_request` returns it unmodified instead of raising
`HingeRequestError`. -/
def r600 : HttpResponse :=
  { status_code := 600, reason := "Server Error", text := "body", jsonBody := none }

/-- The caller headers used for the C5 witness: one name colliding with an
identity header, one not. -/
def kwSample : RequestKwargs :=
  { headers := [("x-app-version", "caller-chosen"), ("x-custom", "kept")] }

/-- The keyword arguments of the verify call in the C2 failing run. -/
def verifyKwargsCex : RequestKwargs :=
  { headers := [("content-type", "application/json; charset=UTF-8")],
    json := some [("deviceId", JVal.jstr "dev-1"), ("installId", JVal.jstr "inst-1"),
      ("phoneNumber", JVal.jstr "+12345678901"), ("otp", JVal.jstr "123456")] }

/-! ## Dictionary lemmas -/

theorem find?_map_replace_ne (k v k' : String) (hne : k' ≠ k) (l : Dict) :
    List.find? (fun p => p.1 == k')
        (List.map (fun p => if p.1 == k then (k, v) else p) l)
      = List.find? (fun p => p.1 == k') l := by
  induction l with
  | nil => rfl
  | cons hd tl ih =>
    simp only [List.map_cons, List.find?_cons]
    by_cases h1 : hd.1 = k
    · have hbk : (hd.1 == k) = true := beq_iff_eq.mpr h1
      have hbk' : (hd.1 == k') = false := by
        refine beq_eq_false_iff_ne.mpr ?_
        rw [h1]; exact fun h => hne h.symm
      have hkk' : (k == k') = false := beq_eq_false_iff_ne.mpr (fun h => hne h.symm)
      simp only [hbk, if_true, hbk', hkk', ih]
    · have hbk : (hd.1 == k) = false := beq_eq_false_iff_ne.mpr h1
      simp only [hbk, Bool.false_eq_true, if_false]
      rw [ih]

theorem find?_map_replace_self (k v : String) (l : Dict)
    (h : List.any l (fun p => p.1 == k) = true) :
    List.find? (fun p => p.1 == k)
        (List.map (fun p => if p.1 == k then (k, v) else p) l) = some (k, v) := by
  induction l with
  | nil => simp at h
  | cons hd tl ih =>
    simp only [List.map_cons, List.find?_cons]
    by_cases h1 : hd.1 = k
    · have hbk : (hd.1 == k) = true := beq_iff_eq.mpr h1
      simp [hbk]
    · have hbk : (hd.1 == k) = false := beq_eq_false_iff_ne.mpr h1
      simp only [hbk, if_false, Bool.false_eq_true]
      apply ih
      simpa [List.any_cons, hbk] using h

/-- A Python dict assignment `d[k] = v` changes exactly the binding of `k`. -/
theorem dget_dinsert (d : Dict) (k v k' : String) :
    dget (dinsert d k v) k' = if k' = k then some v else dget d k' := by
  unfold dget dinsert
  by_cases hany : List.any d (fun p => p.1 == k) = true
  · rw [if_pos hany]
    by_cases hk : k' = k
    · rw [hk, if_pos rfl, find?_map_replace_self k v d hany, Option.map_some']
    · rw [if_neg hk, find?_map_replace_ne k v k' hk d]
  · rw [if_neg hany, List.find?_append]
    have hnone : List.find? (fun p => p.1 == k) d = none := by
      rw [List.find?_eq_none]
      intro x hx hb
      exact hany (List.any_eq_true.mpr ⟨x, hx, hb⟩)
    by_cases hk : k' = k
    · subst hk
      simp [hnone]
    · have : (k == k') = false := beq_eq_false_iff_ne.mpr (fun h => hk h.symm)
      simp [List.find?_cons, this, hk]

/-- `d.update(other)`, when `other` has no duplicate keys, binds every key of
`other` to its value there and leaves all other keys to `d`. -/
theorem dget_dupdate (other : Dict) (d : Dict) (k : String)
    (hnd : (List.map Prod.fst other).Nodup) :
    dget (dupdate d other) k = (dget other k).or (dget d k) := by
  induction other generalizing d with
  | nil => simp [dupdate, dget]
  | cons hd tl ih =>
    obtain ⟨k0, v0⟩ := hd
    simp only [List.map_cons, List.nodup_cons] at hnd
    obtain ⟨hk0, hndtl⟩ := hnd
    have hstep : dupdate d ((k0, v0) :: tl) = dupdate (dinsert d k0 v0) tl := rfl
    rw [hstep, ih _ hndtl, dget_dinsert]
    by_cases hk : k = k0
    · subst hk
      have hfind : List.find? (fun p => p.1 == k) tl = none := by
        rw [List.find?_eq_none]
        intro x hx hb
        exact hk0 (List.mem_map.mpr ⟨x, hx, (beq_iff_eq.mp hb)⟩)
      have htl : dget tl k = none := by
        unfold dget
        rw [hfind]
        rfl
      have hhd : dget ((k, v0) :: tl) k = some v0 := by
        simp [dget, List.find?_cons]
      rw [htl, hhd, if_pos rfl, Option.or_some]
      rfl
    · have hhd : dget ((k0, v0) :: tl) k = dget tl k := by
        have : (k0 == k) = false := beq_eq_false_iff_ne.mpr (fun h => hk h.symm)
        simp [dget, List.find?_cons, this]
      rw [hhd, if_neg hk]

/-- A key listed in an association list has a binding. -/
theorem dget_isSome_of_mem_keys (d : Dict) (k : String)
    (h : k ∈ List.map Prod.fst d) : (dget d k).isSome = true := by
  induction d with
  | nil => simp at h
  | cons hd tl ih =>
    unfold dget
    rw [List.find?_cons]
    by_cases h1 : hd.1 = k
    · have : (hd.1 == k) = true := beq_iff_eq.mpr h1
      simp [this]
    · have hbk : (hd.1 == k) = false := beq_eq_false_iff_ne.mpr h1
      simp only [hbk]
      apply ih
      rcases List.mem_map.mp h with ⟨x, hx, hfst⟩
      cases List.mem_cons.mp hx with
      | inl he => exact absurd (he ▸ hfst) h1
      | inr ht => exact List.mem_map.mpr ⟨x, ht, hfst⟩

/-! ## Identity-header lemmas -/

theorem dget_baseHeaders_auth (cfg : ClientConfig) :
    dget (baseHeaders cfg) "authorization" = none := by
  simp [dget, baseHeaders, List.find?_cons]

theorem dget_baseHeaders_session (cfg : ClientConfig) :
    dget (baseHeaders cfg) "x-session-id" = none := by
  simp [dget, baseHeaders, List.find?_cons]

/-- The binding of `authorization` in `self.default_headers`. -/
theorem dget_defaultHeaders_auth (cfg : ClientConfig) :
    dget (defaultHeaders cfg) "authorization" =
      if optStrTruthy cfg.auth_token then
        some ("Bearer " ++ cfg.auth_token.getD "")
      else none := by
  unfold defaultHeaders
  cases hA : optStrTruthy cfg.auth_token <;> cases hS : optStrTruthy cfg.session_id <;>
    simp only [if_true, if_false, Bool.false_eq_true, dget_dinsert] <;>
    simp [dget_baseHeaders_auth, dget_dinsert]

/-- The binding of `x-session-id` in `self.default_headers`. -/
theorem dget_defaultHeaders_session (cfg : ClientConfig) :
    dget (defaultHeaders cfg) "x-session-id" =
      if optStrTruthy cfg.session_id then some (cfg.session_id.getD "") else none := by
  unfold defaultHeaders
  cases hA : optStrTruthy cfg.auth_token <;> cases hS : optStrTruthy cfg.session_id <;>
    simp only [if_true, if_false, Bool.false_eq_true, dget_dinsert] <;>
    simp [dget_baseHeaders_session, dget_dinsert]

/-- The two conditional inserts do not disturb the fixed identity fields. -/
theorem dget_defaultHeaders_of_base (cfg : ClientConfig) (k : String)
    (h1 : k ≠ "authorization") (h2 : k ≠ "x-session-id") :
    dget (defaultHeaders cfg) k = dget (baseHeaders cfg) k := by
  unfold defaultHeaders
  cases hA : optStrTruthy cfg.auth_token <;> cases hS : optStrTruthy cfg.session_id <;>
    simp [dget_dinsert, h1, h2]

/-- `self.default_headers` has no duplicate keys. -/
theorem nodup_keys_defaultHeaders (cfg : ClientConfig) :
    (List.map Prod.fst (defaultHeaders cfg)).Nodup := by
  unfold defaultHeaders baseHeaders dinsert
  cases hA : optStrTruthy cfg.auth_token <;> cases hS : optStrTruthy cfg.session_id <;>
    simp

/-- Truthiness of an `Optional[str]` means: a non-empty string is supplied. -/
theorem optStrTruthy_iff (o : Option String) :
    optStrTruthy o = true ↔ ∃ t, o = some t ∧ t ≠ "" := by
  cases o <;> simp [optStrTruthy]

/-! ## Claims about header construction -/

/-- C9: when no `sessionId` is supplied the identity header mapping contains
no `x-session-id` key; when a non-empty `sessionId` `S` is supplied the
mapping binds `x-session-id` to exactly `S`; and every fixed identity field
is present in the mapping in both cases. -/
theorem claim_sessionId_header_presence (cfg : ClientConfig) :
    (cfg.session_id = none → dget (defaultHeaders cfg) "x-session-id" = none)
    ∧ (∀ S : String, S ≠ "" → cfg.session_id = some S →
        dget (defaultHeaders cfg) "x-session-id" = some S)
    ∧ (∀ k : String, k ∈ List.map Prod.fst (baseHeaders cfg) →
        (dget (defaultHeaders cfg) k).isSome = true) := by
  refine ⟨?_, ?_, ?_⟩
  · intro h
    rw [dget_defaultHeaders_session, h]
    rfl
  · intro S hS h
    rw [dget_defaultHeaders_session, h]
    have : optStrTruthy (some S) = true := by
      simpa [optStrTruthy] using hS
    rw [this]
    rfl
  · intro k hk
    simp only [baseHeaders, List.map_cons, List.map_nil, List.mem_cons,
      List.not_mem_nil, or_false] at hk
    rcases hk with rfl | rfl | rfl | rfl | rfl | rfl | rfl | rfl | rfl | rfl |
      rfl | rfl | rfl | rfl | rfl | rfl <;>
      · rw [dget_defaultHeaders_of_base _ _ (by decide) (by decide)]
        apply dget_isSome_of_mem_keys
        simp [baseHeaders]

/-- Witness for C9 at concrete configurations. -/
theorem claim_sessionId_header_presence_witness :
    dget (defaultHeaders {}) "x-session-id" = none
    ∧ dget (defaultHeaders { session_id := some "S" }) "x-session-id" = some "S"
    ∧ (dget (defaultHeaders {}) "x-app-version").isSome = true := by
  refine ⟨(claim_sessionId_header_presence {}).1 rfl, ?_, ?_⟩
  · exact (claim_sessionId_header_presence { session_id := some "S" }).2.1 "S"
      (by decide) rfl
  · exact (claim_sessionId_header_presence {}).2.2 "x-app-version"
      (by simp [baseHeaders])

/-- C10: the identity header mapping contains an `authorization` key exactly
when a non-empty `auth_token` is supplied (an empty string counts as absent),
and then its value is the literal prefix `"Bearer "` followed by the token,
never the bare token. -/
theorem claim_authorization_header (cfg : ClientConfig) :
    ((dget (defaultHeaders cfg) "authorization").isSome = true ↔
      ∃ t, cfg.auth_token = some t ∧ t ≠ "")
    ∧ (∀ t : String, cfg.auth_token = some t → t ≠ "" →
        dget (defaultHeaders cfg) "authorization" = some ("Bearer " ++ t)
        ∧ dget (defaultHeaders cfg) "authorization" ≠ some t) := by
  constructor
  · rw [dget_defaultHeaders_auth, ← optStrTruthy_iff]
    cases h : optStrTruthy cfg.auth_token <;> simp
  · intro t ht hne
    have htr : optStrTruthy cfg.auth_token = true := by
      rw [optStrTruthy_iff]; exact ⟨t, ht, hne⟩
    rw [dget_defaultHeaders_auth, htr, if_pos rfl, ht]
    constructor
    · rfl
    · intro heq
      have h1 : "Bearer " ++ (some t).getD "" = t := Option.some.inj heq
      have h2 := congrArg String.length h1
      rw [String.length_append, Option.getD_some] at h2
      have h7 : "Bearer ".length = 7 := rfl
      rw [h7] at h2
      omega

/-- Witness for C10 at a concrete configuration. -/
theorem claim_authorization_header_witness :
    (dget (defaultHeaders { auth_token := some "T" }) "authorization").isSome = true
    ∧ dget (defaultHeaders { auth_token := some "T" }) "authorization"
        = some ("Bearer " ++ "T")
    ∧ dget (defaultHeaders {}) "authorization" = none := by
  refine ⟨?_, ?_, ?_⟩
  · exact (claim_authorization_header { auth_token := some "T" }).1.mpr
      ⟨"T", rfl, by decide⟩
  · exact ((claim_authorization_header { auth_token := some "T" }).2 "T" rfl
      (by decide)).1
  · have h := (claim_authorization_header {}).1
    cases hd : dget (defaultHeaders {}) "authorization" with
    | none => rfl
    | some v =>
      exfalso
      rcases (hd ▸ h).mp rfl with ⟨t, ht, _⟩
      exact Option.noConfusion ht

/-- C5: in the merged header mapping handed to the transport, identity
headers unconditionally overwrite caller-supplied headers of the same name,
and caller-supplied headers with non-colliding names pass through
unchanged. -/
theorem claim_identity_headers_overwrite (cfg : ClientConfig)
    (kw : RequestKwargs) (k : String) :
    ((dget (defaultHeaders cfg) k).isSome = true →
      dget (mergedHeaders (HingeClient.init cfg) kw) k = dget (defaultHeaders cfg) k)
    ∧ (dget (defaultHeaders cfg) k = none →
      dget (mergedHeaders (HingeClient.init cfg) kw) k = dget kw.headers k) := by
  have hm : mergedHeaders (HingeClient.init cfg) kw
      = dupdate kw.headers (defaultHeaders cfg) := rfl
  rw [hm, dget_dupdate _ _ _ (nodup_keys_defaultHeaders cfg)]
  constructor
  · intro h
    rcases Option.isSome_iff_exists.mp h with ⟨v, hv⟩
    rw [hv]
    rfl
  · intro h
    rw [h]
    rfl


/-- Witness for C5: the identity value wins on the collision, the caller
value survives on the fresh name. -/
theorem claim_identity_headers_overwrite_witness :
    dget (mergedHeaders (HingeClient.init {}) kwSample) "x-app-version" = some "9.75.0"
    ∧ dget (mergedHeaders (HingeClient.init {}) kwSample) "x-custom" = some "kept" := by
  constructor
  · have h := (claim_identity_headers_overwrite {} kwSample "x-app-version").1 (by decide)
    rw [h]
    decide
  · have h := (claim_identity_headers_overwrite {} kwSample "x-custom").2 (by decide)
    rw [h]
    decide

/-! ## Request classification lemmas -/

theorem raiseForStatusMsg_eq_none (s : Nat) (reason url : String)
    (h : ¬(400 ≤ s ∧ s < 600)) : raiseForStatusMsg s reason url = none := by
  unfold raiseForStatusMsg
  rw [if_neg, if_neg] <;> omega

theorem request_ok_of_status (c : HingeClient) (method url : String)
    (kw : RequestKwargs) (r : HttpResponse)
    (h : ¬(400 ≤ r.status_code ∧ r.status_code < 600)) :
    c.request method url kw (Transport.response r) = Except.ok r := by
  simp [HingeClient.request, raiseForStatusMsg_eq_none r.status_code r.reason url h]

theorem request_401 (c : HingeClient) (method url : String)
    (kw : RequestKwargs) (r : HttpResponse) (h : r.status_code = 401) :
    c.request method url kw (Transport.response r)
      = Except.error (HingeError.authError "Authentication failed"
          (httpErrorDetails (mergedHeaders c kw) kw url)) := by
  have hm : raiseForStatusMsg r.status_code r.reason url
      = some (toString r.status_code ++ " Client Error: " ++ r.reason
          ++ " for url: " ++ url) := by
    unfold raiseForStatusMsg
    rw [if_pos]
    omega
  rw [h] at hm
  simp [HingeClient.request, h, hm]

theorem request_412 (c : HingeClient) (method url : String)
    (kw : RequestKwargs) (r : HttpResponse) (h : r.status_code = 412) :
    c.request method url kw (Transport.response r)
      = Except.error (HingeError.authError "Precondition failed"
          (httpErrorDetails (mergedHeaders c kw) kw url)) := by
  have hm : raiseForStatusMsg r.status_code r.reason url
      = some (toString r.status_code ++ " Client Error: " ++ r.reason
          ++ " for url: " ++ url) := by
    unfold raiseForStatusMsg
    rw [if_pos]
    omega
  rw [h] at hm
  simp [HingeClient.request, h, hm]

theorem request_httpError_other (c : HingeClient) (method url : String)
    (kw : RequestKwargs) (r : HttpResponse) (msg : String)
    (hn1 : r.status_code ≠ 401) (hn2 : r.status_code ≠ 412)
    (hm : raiseForStatusMsg r.status_code r.reason url = some msg) :
    c.request method url kw (Transport.response r)
      = Except.error (HingeError.requestError r.status_code msg r.text
          (httpErrorDetails (mergedHeaders c kw) kw url)) := by
  have b1 : (r.status_code == 401) = false := beq_eq_false_iff_ne.mpr hn1
  have b2 : (r.status_code == 412) = false := beq_eq_false_iff_ne.mpr hn2
  simp [HingeClient.request, hm, b1, b2]

theorem request_transport_failure (c : HingeClient) (method url : String)
    (kw : RequestKwargs) (excType excMsg : String) :
    c.request method url kw (Transport.failure excType excMsg)
      = Except.error (HingeError.apiError ("Request failed: " ++ excMsg)
          [("exception_type", DetailValue.vstr excType),
           ("url", DetailValue.vstr url),
           ("method", DetailValue.vstr method)]) := rfl

/-! ## Claims about request execution -/


/-- Counterexample to C1 as stated: a response with status 600 (which is
`≥ 400` and neither 401 nor 412) is returned unmodified — no `RequestError`
is raised, because `requests.Response.raise_for_status` only raises for
statuses in [400, 600). -/
theorem claim_request_classification_cex :
    (HingeClient.init {}).request "GET" "https://prod-api.hingeaws.net/user/v3"
      {} (Transport.response r600) = Except.ok r600 := by
  apply request_ok_of_status
  decide

/-- C1 (amended): for every call through `_request`: a received status of
401 or 412 raises `AuthError`; any other received status in [400, 600)
raises `RequestError`; a received status below 400 — or at 600 and above,
outside the range `raise_for_status` treats as an error — returns the
response unmodified; and a transport failure raises `APIError` whose details
carry the exception kind, the url and the method (and, being an `APIError`,
is never an `AuthError` or `RequestError`). -/
theorem claim_request_classification (c : HingeClient) (method url : String)
    (kw : RequestKwargs) (r : HttpResponse) (excType excMsg : String) :
    (¬(400 ≤ r.status_code ∧ r.status_code < 600) →
      c.request method url kw (Transport.response r) = Except.ok r)
    ∧ (r.status_code = 401 →
      c.request method url kw (Transport.response r)
        = Except.error (HingeError.authError "Authentication failed"
            (httpErrorDetails (mergedHeaders c kw) kw url)))
    ∧ (r.status_code = 412 →
      c.request method url kw (Transport.response r)
        = Except.error (HingeError.authError "Precondition failed"
            (httpErrorDetails (mergedHeaders c kw) kw url)))
    ∧ (∀ msg : String, r.status_code ≠ 401 → r.status_code ≠ 412 →
      raiseForStatusMsg r.status_code r.reason url = some msg →
      c.request method url kw (Transport.response r)
        = Except.error (HingeError.requestError r.status_code msg r.text
            (httpErrorDetails (mergedHeaders c kw) kw url)))
    ∧ c.request method url kw (Transport.failure excType excMsg)
        = Except.error (HingeError.apiError ("Request failed: " ++ excMsg)
            [("exception_type", DetailValue.vstr excType),
             ("url", DetailValue.vstr url),
             ("method", DetailValue.vstr method)]) :=
  ⟨request_ok_of_status c method url kw r,
   request_401 c method url kw r,
   request_412 c method url kw r,
   fun msg hn1 hn2 hm => request_httpError_other c method url kw r msg hn1 hn2 hm,
   request_transport_failure c method url kw excType excMsg⟩

/-- Witness for the amended C1 at concrete inputs: status 200 is returned
unmodified, statuses 401 and 412 raise `AuthError`, status 404 raises
`RequestError`, and a transport failure raises `APIError`. -/
theorem claim_request_classification_witness :
    (HingeClient.init {}).request "GET" "u" {}
        (Transport.response ⟨200, "OK", "t", none⟩)
      = Except.ok ⟨200, "OK", "t", none⟩
    ∧ (HingeClient.init {}).request "GET" "u" {}
        (Transport.response ⟨401, "U", "t", none⟩)
      = Except.error (HingeError.authError "Authentication failed"
          (httpErrorDetails (mergedHeaders (HingeClient.init {}) {}) {} "u"))
    ∧ (HingeClient.init {}).request "GET" "u" {}
        (Transport.response ⟨412, "P", "t", none⟩)
      = Except.error (HingeError.authError "Precondition failed"
          (httpErrorDetails (mergedHeaders (HingeClient.init {}) {}) {} "u"))
    ∧ (HingeClient.init {}).request "GET" "u" {}
        (Transport.response ⟨404, "NF", "t", none⟩)
      = Except.error (HingeError.requestError 404
          "404 Client Error: NF for url: u" "t"
          (httpErrorDetails (mergedHeaders (HingeClient.init {}) {}) {} "u"))
    ∧ (HingeClient.init {}).request "GET" "u" {}
        (Transport.failure "ConnectionError" "refused")
      = Except.error (HingeError.apiError "Request failed: refused"
          [("exception_type", DetailValue.vstr "ConnectionError"),
           ("url", DetailValue.vstr "u"),
           ("method", DetailValue.vstr "GET")]) := by
  refine ⟨?_, ?_, ?_, ?_, ?_⟩
  · exact (claim_request_classification (HingeClient.init {}) "GET" "u" {}
      ⟨200, "OK", "t", none⟩ "E" "m").1 (by decide)
  · exact (claim_request_classification (HingeClient.init {}) "GET" "u" {}
      ⟨401, "U", "t", none⟩ "E" "m").2.1 rfl
  · exact (claim_request_classification (HingeClient.init {}) "GET" "u" {}
      ⟨412, "P", "t", none⟩ "E" "m").2.2.1 rfl
  · exact (claim_request_classification (HingeClient.init {}) "GET" "u" {}
      ⟨404, "NF", "t", none⟩ "E" "m").2.2.2.1
      "404 Client Error: NF for url: u" (by decide) (by decide) (by decide)
  · exact (claim_request_classification (HingeClient.init {}) "GET" "u" {}
      ⟨404, "NF", "t", none⟩ "ConnectionError" "refused").2.2.2.2

/-- C4: a received error status in [400, 600) other than 401 and 412 raises
`RequestError` carrying the status code, a message, the raw response text,
and a details mapping that binds the endpoint URL and the merged request
headers with every case-insensitive `authorization` key removed. -/
theorem claim_requestError_payload (c : HingeClient) (method url : String)
    (kw : RequestKwargs) (r : HttpResponse) (msg : String)
    (hn1 : r.status_code ≠ 401) (hn2 : r.status_code ≠ 412)
    (hm : raiseForStatusMsg r.status_code r.reason url = some msg) :
    c.request method url kw (Transport.response r)
      = Except.error (HingeError.requestError r.status_code msg r.text
          (httpErrorDetails (mergedHeaders c kw) kw url))
    ∧ detailsGet (httpErrorDetails (mergedHeaders c kw) kw url) "endpoint"
        = some (DetailValue.vstr url)
    ∧ detailsGet (httpErrorDetails (mergedHeaders c kw) kw url) "request_headers"
        = some (DetailValue.vdict (List.filter
            (fun p => !(strLower p.1 == "authorization")) (mergedHeaders c kw)))
    ∧ (∀ p : String × String,
        p ∈ List.filter (fun p => !(strLower p.1 == "authorization"))
          (mergedHeaders c kw)
        ↔ p ∈ mergedHeaders c kw ∧ strLower p.1 ≠ "authorization") := by
  refine ⟨request_httpError_other c method url kw r msg hn1 hn2 hm, rfl, rfl, ?_⟩
  intro p
  rw [List.mem_filter]
  constructor
  · rintro ⟨hmem, hb⟩
    exact ⟨hmem, by simpa using hb⟩
  · rintro ⟨hmem, hb⟩
    exact ⟨hmem, by simpa using hb⟩

/-- Witness for C4 at a concrete call: a 500 response with an
`authorization` header supplied both by the caller (mixed case) and by the
identity headers; the sanitized details keep every header except the
case-insensitive `authorization` ones. -/
theorem claim_requestError_payload_witness :
    (HingeClient.init { auth_token := some "tok" }).request "GET" "u"
        { headers := [("Authorization", "caller"), ("x-custom", "kept")] }
        (Transport.response ⟨500, "ISE", "oops", none⟩)
      = Except.error (HingeError.requestError 500
          "500 Server Error: ISE for url: u" "oops"
          (httpErrorDetails
            (mergedHeaders (HingeClient.init { auth_token := some "tok" })
              { headers := [("Authorization", "caller"), ("x-custom", "kept")] })
            { headers := [("Authorization", "caller"), ("x-custom", "kept")] } "u"))
    ∧ (("x-custom", "kept") ∈ List.filter
        (fun p => !(strLower p.1 == "authorization"))
        (mergedHeaders (HingeClient.init { auth_token := some "tok" })
          { headers := [("Authorization", "caller"), ("x-custom", "kept")] })) := by
  constructor
  · exact (claim_requestError_payload
      (HingeClient.init { auth_token := some "tok" }) "GET" "u"
      { headers := [("Authorization", "caller"), ("x-custom", "kept")] }
      ⟨500, "ISE", "oops", none⟩ "500 Server Error: ISE for url: u"
      (by decide) (by decide) (by decide)).1
  · decide

/-! ## Properties of the generated session identifier -/


theorem hexCharVal_hexDigitChar (m : Nat) (h : m < 16) :
    hexCharVal (hexDigitChar m) = m := by
  interval_cases m <;> decide

theorem hexChars_length (n len : Nat) : (hexChars n len).length = len := by
  induction len generalizing n with
  | zero => rfl
  | succ l ih => simp [hexChars, ih]

theorem unhexFrom_append (a : Nat) (xs ys : List Char) :
    unhexFrom a (xs ++ ys) = unhexFrom (unhexFrom a xs) ys := by
  simp [unhexFrom, List.foldl_append]

theorem unhexFrom_hexChars (a n len : Nat) (h : n < 16 ^ len) :
    unhexFrom a (hexChars n len) = a * 16 ^ len + n := by
  induction len generalizing a n with
  | zero =>
    simp only [hexChars, unhexFrom, List.foldl_nil, pow_zero]
    omega
  | succ l ih =>
    have hq : n / 16 < 16 ^ l := by
      apply Nat.div_lt_of_lt_mul
      rw [mul_comm, ← pow_succ]
      exact h
    have hstep : hexChars n (l + 1)
        = hexChars (n / 16) l ++ [hexDigitChar (n % 16)] := rfl
    rw [hstep, unhexFrom_append, ih _ _ hq]
    show 16 * (a * 16 ^ l + n / 16) + hexCharVal (hexDigitChar (n % 16)) = _
    rw [hexCharVal_hexDigitChar _ (Nat.mod_lt _ (by norm_num))]
    have hre : 16 * (a * 16 ^ l + n / 16) + n % 16
        = a * (16 ^ l * 16) + (16 * (n / 16) + n % 16) := by ring
    rw [hre, Nat.div_add_mod, ← pow_succ]

theorem unhex_hexChars (n len : Nat) (h : n < 16 ^ len) :
    unhexFrom 0 (hexChars n len) = n := by
  simpa using unhexFrom_hexChars 0 n len h

theorem uuid4str_length (r : Nat) : (uuid4str r).length = 36 := by
  simp [uuid4str, String.length, hexChars_length]

/-- The generated fallback session identifier is never empty. -/
theorem uuid4str_ne_empty (r : Nat) : uuid4str r ≠ "" := by
  intro h
  have hlen := congrArg String.length h
  rw [uuid4str_length] at hlen
  exact absurd hlen (by decide)

/-- Distinct 122-bit random draws render to distinct UUID strings. -/
theorem uuid4str_inj (r1 r2 : Nat) (h1 : r1 < 2 ^ 122) (h2 : r2 < 2 ^ 122)
    (heq : uuid4str r1 = uuid4str r2) : r1 = r2 := by
  have hp8 : (16 : Nat) ^ 8 = 2 ^ 32 := by norm_num
  have hp4 : (16 : Nat) ^ 4 = 65536 := by norm_num
  have hp12 : (16 : Nat) ^ 12 = 2 ^ 48 := by norm_num
  have hl : (hexChars (r1 % 2 ^ 32) 8
        ++ '-' :: (hexChars (r1 / 2 ^ 32 % 2 ^ 16) 4
        ++ '-' :: (hexChars (4 * 2 ^ 12 + r1 / 2 ^ 48 % 2 ^ 12) 4
        ++ '-' :: (hexChars (2 * 2 ^ 14 + r1 / 2 ^ 60 % 2 ^ 14) 4
        ++ '-' :: hexChars (r1 / 2 ^ 74 % 2 ^ 48) 12))))
      = (hexChars (r2 % 2 ^ 32) 8
        ++ '-' :: (hexChars (r2 / 2 ^ 32 % 2 ^ 16) 4
        ++ '-' :: (hexChars (4 * 2 ^ 12 + r2 / 2 ^ 48 % 2 ^ 12) 4
        ++ '-' :: (hexChars (2 * 2 ^ 14 + r2 / 2 ^ 60 % 2 ^ 14) 4
        ++ '-' :: hexChars (r2 / 2 ^ 74 % 2 ^ 48) 12)))) := by
    have := congrArg String.data heq
    simpa [uuid4str] using this
  obtain ⟨eA, hl⟩ := List.append_inj hl (by simp [hexChars_length])
  obtain ⟨-, hl⟩ := List.cons.inj hl
  obtain ⟨eB, hl⟩ := List.append_inj hl (by simp [hexChars_length])
  obtain ⟨-, hl⟩ := List.cons.inj hl
  obtain ⟨eC, hl⟩ := List.append_inj hl (by simp [hexChars_length])
  obtain ⟨-, hl⟩ := List.cons.inj hl
  obtain ⟨eD, hl⟩ := List.append_inj hl (by simp [hexChars_length])
  obtain ⟨-, eE⟩ := List.cons.inj hl
  have vA : r1 % 2 ^ 32 = r2 % 2 ^ 32 := by
    have b1 : r1 % 2 ^ 32 < 16 ^ 8 := by rw [hp8]; exact Nat.mod_lt _ (by norm_num)
    have b2 : r2 % 2 ^ 32 < 16 ^ 8 := by rw [hp8]; exact Nat.mod_lt _ (by norm_num)
    have := congrArg (unhexFrom 0) eA
    rwa [unhex_hexChars _ _ b1, unhex_hexChars _ _ b2] at this
  have vB : r1 / 2 ^ 32 % 2 ^ 16 = r2 / 2 ^ 32 % 2 ^ 16 := by
    have b1 : r1 / 2 ^ 32 % 2 ^ 16 < 16 ^ 4 := by
      rw [hp4]; exact Nat.mod_lt _ (by norm_num)
    have b2 : r2 / 2 ^ 32 % 2 ^ 16 < 16 ^ 4 := by
      rw [hp4]; exact Nat.mod_lt _ (by norm_num)
    have := congrArg (unhexFrom 0) eB
    rwa [unhex_hexChars _ _ b1, unhex_hexChars _ _ b2] at this
  have vC : r1 / 2 ^ 48 % 2 ^ 12 = r2 / 2 ^ 48 % 2 ^ 12 := by
    have m1 : r1 / 2 ^ 48 % 2 ^ 12 < 2 ^ 12 := Nat.mod_lt _ (by norm_num)
    have m2 : r2 / 2 ^ 48 % 2 ^ 12 < 2 ^ 12 := Nat.mod_lt _ (by norm_num)
    have b1 : 4 * 2 ^ 12 + r1 / 2 ^ 48 % 2 ^ 12 < 16 ^ 4 := by rw [hp4]; omega
    have b2 : 4 * 2 ^ 12 + r2 / 2 ^ 48 % 2 ^ 12 < 16 ^ 4 := by rw [hp4]; omega
    have := congrArg (unhexFrom 0) eC
    rw [unhex_hexChars _ _ b1, unhex_hexChars _ _ b2] at this
    omega
  have vD : r1 / 2 ^ 60 % 2 ^ 14 = r2 / 2 ^ 60 % 2 ^ 14 := by
    have m1 : r1 / 2 ^ 60 % 2 ^ 14 < 2 ^ 14 := Nat.mod_lt _ (by norm_num)
    have m2 : r2 / 2 ^ 60 % 2 ^ 14 < 2 ^ 14 := Nat.mod_lt _ (by norm_num)
    have b1 : 2 * 2 ^ 14 + r1 / 2 ^ 60 % 2 ^ 14 < 16 ^ 4 := by rw [hp4]; omega
    have b2 : 2 * 2 ^ 14 + r2 / 2 ^ 60 % 2 ^ 14 < 16 ^ 4 := by rw [hp4]; omega
    have := congrArg (unhexFrom 0) eD
    rw [unhex_hexChars _ _ b1, unhex_hexChars _ _ b2] at this
    omega
  have vE : r1 / 2 ^ 74 % 2 ^ 48 = r2 / 2 ^ 74 % 2 ^ 48 := by
    have b1 : r1 / 2 ^ 74 % 2 ^ 48 < 16 ^ 12 := by
      rw [hp12]; exact Nat.mod_lt _ (by norm_num)
    have b2 : r2 / 2 ^ 74 % 2 ^ 48 < 16 ^ 12 := by
      rw [hp12]; exact Nat.mod_lt _ (by norm_num)
    have := congrArg (unhexFrom 0) eE
    rwa [unhex_hexChars _ _ b1, unhex_hexChars _ _ b2] at this
  omega

/-! ## Claims about the SMS login flow -/

/-- C3: when the initiate call succeeds and the verify endpoint answers 200
with non-empty `token`, `playerId` and `sessionId`, the flow succeeds and
the resulting client's auth session is exactly that triple. -/
theorem claim_login_success_session
    (phone dev inst code reason0 text0 reasonV textV T U S : String)
    (bodyInit : Option JObj) (seed : Nat)
    (hT : T ≠ "") ( _hU : U ≠ "") (hS : S ≠ "") :
    login_with_sms phone dev inst
        (Transport.response ⟨200, reason0, text0, bodyInit⟩) code
        (Transport.response ⟨200, reasonV, textV,
          some [("token", JVal.jstr T), ("playerId", JVal.jstr U),
                ("sessionId", JVal.jstr S)]⟩) seed
      = Except.ok (HingeClient.init
          { auth_token := some T, device_id := dev, install_id := inst,
            user_id := some U, session_id := some S })
    ∧ (HingeClient.init
        { auth_token := some T, device_id := dev, install_id := inst,
          user_id := some U, session_id := some S }).auth_token = some T
    ∧ (HingeClient.init
        { auth_token := some T, device_id := dev, install_id := inst,
          user_id := some U, session_id := some S }).user_id = some U
    ∧ (HingeClient.init
        { auth_token := some T, device_id := dev, install_id := inst,
          user_id := some U, session_id := some S }).session_id = some S := by
  refine ⟨?_, rfl, rfl, rfl⟩
  have hTb : (T == "") = false := beq_eq_false_iff_ne.mpr hT
  have hSb : (S == "") = false := beq_eq_false_iff_ne.mpr hS
  have hInit := request_ok_of_status
    (HingeClient.init { device_id := dev, install_id := inst }) "POST"
    (BASE_URL ++ "/auth/sms/v2/initiate")
    { headers := [("content-type", "application/json; charset=UTF-8")],
      json := some [("phoneNumber", JVal.jstr phone), ("deviceId", JVal.jstr dev)] }
    ⟨200, reason0, text0, bodyInit⟩ (by norm_num)
  have hVer := request_ok_of_status
    (HingeClient.init { device_id := dev, install_id := inst }) "POST"
    (BASE_URL ++ "/auth/sms/v2")
    { headers := [("content-type", "application/json; charset=UTF-8")],
      json := some [("deviceId", JVal.jstr dev), ("installId", JVal.jstr inst),
        ("phoneNumber", JVal.jstr phone), ("otp", JVal.jstr code)] }
    ⟨200, reasonV, textV,
      some [("token", JVal.jstr T), ("playerId", JVal.jstr U),
            ("sessionId", JVal.jstr S)]⟩ (by norm_num)
  simp only [login_with_sms]
  rw [hInit, hVer]
  simp [jget, jtruthy, asOptStr, hTb, hSb]

/-- Witness for C3 at concrete inputs. -/
theorem claim_login_success_session_witness :
    login_with_sms "+12345678901" "dev-1" "inst-1"
        (Transport.response ⟨200, "OK", "", none⟩) "123456"
        (Transport.response ⟨200, "OK", "tx",
          some [("token", JVal.jstr "T"), ("playerId", JVal.jstr "U"),
                ("sessionId", JVal.jstr "S")]⟩) 0
      = Except.ok (HingeClient.init
          { auth_token := some "T", device_id := "dev-1", install_id := "inst-1",
            user_id := some "U", session_id := some "S" }) :=
  (claim_login_success_session "+12345678901" "dev-1" "inst-1" "123456"
    "OK" "" "OK" "tx" "T" "U" "S" none 0
    (by decide) (by decide) (by decide)).1

/-- C6: when the verify body has a non-empty token and playerId but no
`sessionId`, the flow still succeeds; the session identifier is a freshly
generated UUID string, which is non-empty, and runs consuming distinct
122-bit random draws produce distinct session identifiers. -/
theorem claim_login_generated_session
    (phone dev inst code reason0 text0 reasonV textV T U : String)
    (bodyInit : Option JObj) (seed1 seed2 : Nat)
    (hT : T ≠ "") (hs1 : seed1 < 2 ^ 122) (hs2 : seed2 < 2 ^ 122)
    (hne : seed1 ≠ seed2) :
    (∀ seed : Nat, login_with_sms phone dev inst
        (Transport.response ⟨200, reason0, text0, bodyInit⟩) code
        (Transport.response ⟨200, reasonV, textV,
          some [("token", JVal.jstr T), ("playerId", JVal.jstr U)]⟩) seed
      = Except.ok (HingeClient.init
          { auth_token := some T, device_id := dev, install_id := inst,
            user_id := some U, session_id := some (uuid4str seed) }))
    ∧ uuid4str seed1 ≠ ""
    ∧ (HingeClient.init
        { auth_token := some T, device_id := dev, install_id := inst,
          user_id := some U, session_id := some (uuid4str seed1) }).session_id
      ≠ (HingeClient.init
        { auth_token := some T, device_id := dev, install_id := inst,
          user_id := some U, session_id := some (uuid4str seed2) }).session_id := by
  refine ⟨?_, uuid4str_ne_empty seed1, ?_⟩
  · intro seed
    have hTb : (T == "") = false := beq_eq_false_iff_ne.mpr hT
    have hInit := request_ok_of_status
      (HingeClient.init { device_id := dev, install_id := inst }) "POST"
      (BASE_URL ++ "/auth/sms/v2/initiate")
      { headers := [("content-type", "application/json; charset=UTF-8")],
        json := some [("phoneNumber", JVal.jstr phone), ("deviceId", JVal.jstr dev)] }
      ⟨200, reason0, text0, bodyInit⟩ (by norm_num)
    have hVer := request_ok_of_status
      (HingeClient.init { device_id := dev, install_id := inst }) "POST"
      (BASE_URL ++ "/auth/sms/v2")
      { headers := [("content-type", "application/json; charset=UTF-8")],
        json := some [("deviceId", JVal.jstr dev), ("installId", JVal.jstr inst),
          ("phoneNumber", JVal.jstr phone), ("otp", JVal.jstr code)] }
      ⟨200, reasonV, textV,
        some [("token", JVal.jstr T), ("playerId", JVal.jstr U)]⟩ (by norm_num)
    simp only [login_with_sms]
    rw [hInit, hVer]
    simp [jget, jtruthy, asOptStr, hTb]
  · show some (uuid4str seed1) ≠ some (uuid4str seed2)
    intro h
    exact hne (uuid4str_inj seed1 seed2 hs1 hs2 (Option.some.inj h))

/-- Witness for C6 at concrete inputs and two concrete random draws. -/
theorem claim_login_generated_session_witness :
    login_with_sms "+12345678901" "dev-1" "inst-1"
        (Transport.response ⟨200, "OK", "", none⟩) "123456"
        (Transport.response ⟨200, "OK", "tx",
          some [("token", JVal.jstr "T"), ("playerId", JVal.jstr "U")]⟩) 7
      = Except.ok (HingeClient.init
          { auth_token := some "T", device_id := "dev-1", install_id := "inst-1",
            user_id := some "U", session_id := some (uuid4str 7) })
    ∧ uuid4str 7 ≠ "" := by
  have h := claim_login_generated_session "+12345678901" "dev-1" "inst-1"
    "123456" "OK" "" "OK" "tx" "T" "U" none 7 8
    (by decide) (by norm_num) (by norm_num) (by norm_num)
  exact ⟨h.1 7, h.2.1⟩

/-- C7: when the verify response passes the executor (status outside
[400, 600)), parses, and its body has no `token` key, the flow raises
`APIError` "Failed to retrieve authentication token" carrying the full
parsed body; no authenticated client is produced. -/
theorem claim_login_missing_token
    (phone dev inst code reason0 text0 reasonV textV : String)
    (bodyInit : Option JObj) (data : JObj) (sv seed : Nat)
    (hsv : ¬(400 ≤ sv ∧ sv < 600))
    (htok : jget data "token" = none) :
    login_with_sms phone dev inst
        (Transport.response ⟨200, reason0, text0, bodyInit⟩) code
        (Transport.response ⟨sv, reasonV, textV, some data⟩) seed
      = Except.error (HingeError.apiError "Failed to retrieve authentication token"
          [("response", DetailValue.vjobj data)]) := by
  have h412 : (sv == 412) = false := beq_eq_false_iff_ne.mpr (by omega)
  have hInit := request_ok_of_status
    (HingeClient.init { device_id := dev, install_id := inst }) "POST"
    (BASE_URL ++ "/auth/sms/v2/initiate")
    { headers := [("content-type", "application/json; charset=UTF-8")],
      json := some [("phoneNumber", JVal.jstr phone), ("deviceId", JVal.jstr dev)] }
    ⟨200, reason0, text0, bodyInit⟩ (by norm_num)
  have hVer := request_ok_of_status
    (HingeClient.init { device_id := dev, install_id := inst }) "POST"
    (BASE_URL ++ "/auth/sms/v2")
    { headers := [("content-type", "application/json; charset=UTF-8")],
      json := some [("deviceId", JVal.jstr dev), ("installId", JVal.jstr inst),
        ("phoneNumber", JVal.jstr phone), ("otp", JVal.jstr code)] }
    ⟨sv, reasonV, textV, some data⟩ hsv
  simp only [login_with_sms]
  rw [hInit, hVer]
  simp [h412, htok, jtruthy]

/-- Witness for C7: a 200 response with an empty JSON object body. -/
theorem claim_login_missing_token_witness :
    login_with_sms "+12345678901" "dev-1" "inst-1"
        (Transport.response ⟨200, "OK", "", none⟩) "123456"
        (Transport.response ⟨200, "OK", "{}", some []⟩) 0
      = Except.error (HingeError.apiError "Failed to retrieve authentication token"
          [("response", DetailValue.vjobj [])]) :=
  claim_login_missing_token "+12345678901" "dev-1" "inst-1" "123456"
    "OK" "" "OK" "{}" none [] 200 0 (by norm_num) (by decide)

/-- C8: when the verify response passes the executor but its body cannot be
parsed as JSON, the flow raises `APIError` "Failed to parse verification
response" carrying the status code and raw text — an `APIError`, hence
neither `AuthError` nor `RequestError`. -/
theorem claim_login_unparseable_response
    (phone dev inst code reason0 text0 reasonV textV : String)
    (bodyInit : Option JObj) (sv seed : Nat)
    (hsv : ¬(400 ≤ sv ∧ sv < 600)) :
    login_with_sms phone dev inst
        (Transport.response ⟨200, reason0, text0, bodyInit⟩) code
        (Transport.response ⟨sv, reasonV, textV, none⟩) seed
      = Except.error (HingeError.apiError "Failed to parse verification response"
          [("status_code", DetailValue.vnum sv),
           ("response_text", DetailValue.vstr textV)]) := by
  have hInit := request_ok_of_status
    (HingeClient.init { device_id := dev, install_id := inst }) "POST"
    (BASE_URL ++ "/auth/sms/v2/initiate")
    { headers := [("content-type", "application/json; charset=UTF-8")],
      json := some [("phoneNumber", JVal.jstr phone), ("deviceId", JVal.jstr dev)] }
    ⟨200, reason0, text0, bodyInit⟩ (by norm_num)
  have hVer := request_ok_of_status
    (HingeClient.init { device_id := dev, install_id := inst }) "POST"
    (BASE_URL ++ "/auth/sms/v2")
    { headers := [("content-type", "application/json; charset=UTF-8")],
      json := some [("deviceId", JVal.jstr dev), ("installId", JVal.jstr inst),
        ("phoneNumber", JVal.jstr phone), ("otp", JVal.jstr code)] }
    ⟨sv, reasonV, textV, none⟩ hsv
  simp only [login_with_sms]
  rw [hInit, hVer]

/-- Witness for C8: a 200 response whose body is not JSON. -/
theorem claim_login_unparseable_response_witness :
    login_with_sms "+12345678901" "dev-1" "inst-1"
        (Transport.response ⟨200, "OK", "", none⟩) "123456"
        (Transport.response ⟨200, "OK", "not json", none⟩) 0
      = Except.error (HingeError.apiError "Failed to parse verification response"
          [("status_code", DetailValue.vnum 200),
           ("response_text", DetailValue.vstr "not json")]) :=
  claim_login_unparseable_response "+12345678901" "dev-1" "inst-1" "123456"
    "OK" "" "OK" "not json" none 200 0 (by norm_num)


/-- C2 failing input: the verify endpoint answers 412 with a parseable body
carrying `caseId` "C1".  Because `_request` calls `raise_for_status` first,
it raises `HingeAuthError "Precondition failed"` with only the request
details, so the dedicated 412/`caseId` branch of `login_with_sms`
(client.py lines 192-202) — which would raise "Email verification required"
with `case_id` in its details — is unreachable, contradicting the claim. -/
theorem claim_verify_412_preempted :
    login_with_sms "+12345678901" "dev-1" "inst-1"
        (Transport.response ⟨200, "OK", "", none⟩) "123456"
        (Transport.response ⟨412, "Precondition Failed", "tx",
          some [("caseId", JVal.jstr "C1"), ("message", JVal.jstr "verify email")]⟩) 0
      = Except.error (HingeError.authError "Precondition failed"
          (httpErrorDetails
            (mergedHeaders
              (HingeClient.init { device_id := "dev-1", install_id := "inst-1" })
              verifyKwargsCex)
            verifyKwargsCex (BASE_URL ++ "/auth/sms/v2")))
    ∧ login_with_sms "+12345678901" "dev-1" "inst-1"
        (Transport.response ⟨200, "OK", "", none⟩) "123456"
        (Transport.response ⟨412, "Precondition Failed", "tx",
          some [("caseId", JVal.jstr "C1"), ("message", JVal.jstr "verify email")]⟩) 0
      ≠ Except.error (HingeError.authError "Email verification required"
          [("case_id", DetailValue.vjval (JVal.jstr "C1")),
           ("message", DetailValue.vjval (JVal.jstr "verify email"))]) := by
  constructor
  · decide
  · decide

end HingeSDK
